import Mathlib

/-!
Shallow embedding of the AURA backend (src/server.js): the multi-provider
AI response orchestration with ordered fallback (getAIResponse), the local
keyword fallback responder (getFallbackResponse), the per-user work-session
timer registry (startWorkTimer / checkTimerStatus / handleTimerComplete),
and the keyword command router (handleSpecialCommands).

Modelling conventions:
* Timestamps are integers in milliseconds (Date.now()).
* A provider call (callGroqAPI / callOpenAIAPI / callGeminiAPI /
  callHuggingFaceAPI) is modelled by its observable outcome, an
  `Option String`: each of those functions catches every transport error,
  returns null on a non-OK HTTP status or (via the catch) on a malformed
  payload, and otherwise returns the trimmed text, so the caller sees
  exactly a string or null.  The outcome oracle is indexed by the number
  of provider calls already made in the invocation, so two calls to the
  same provider may differ.
* JS truthiness of a string (the `if (response)` checks and the key
  checks) is non-emptiness.
* Math.random-derived payload fields (stressLevel, confidence) and fields
  never examined by any stated property (features lists, encouragement
  strings, progress percentage) are outside the model.
-/

namespace Aura

/-- The four configured chat-completion providers (AI_APIS.endpoints). -/
inductive Provider where
  | groq
  | openai
  | gemini
  | huggingface
deriving DecidableEq, Repr

open Provider

/-- AI_APIS.backup: the fixed fallback order. -/
def backupList : List Provider := [openai, huggingface, gemini]

/-- API_KEYS: per-provider secrets.  The env defaults give empty strings for
the first three; HUGGINGFACE_TOKEN defaults to a non-empty placeholder. -/
structure Keys where
  GROQ_API_KEY : String
  OPENAI_API_KEY : String
  GEMINI_API_KEY : String
  HUGGINGFACE_TOKEN : String
deriving DecidableEq, Repr

/-- Credential presence: getAIResponse checks
API_KEYS[NAME_API_KEY] || API_KEYS[NAME_TOKEN]; for each provider exactly
one of the two names exists in API_KEYS, and JS truthiness of the string
is non-emptiness. -/
def hasCred (k : Keys) : Provider → Bool
  | groq => !k.GROQ_API_KEY.isEmpty
  | openai => !k.OPENAI_API_KEY.isEmpty
  | gemini => !k.GEMINI_API_KEY.isEmpty
  | huggingface => !k.HUGGINGFACE_TOKEN.isEmpty

/-- JS toLowerCase on the basic latin characters the trigger keywords use:
lower-case every character of the string. -/
def lowercase (s : String) : String := ⟨s.data.map Char.toLower⟩

/-- JS s.includes(t): t occurs as a contiguous substring of s. -/
def strContains (s t : String) : Bool := decide (t.toList <:+: s.toList)

/-- JS truthiness of a provider-call result (string or null). -/
def truthy : Option String → Bool
  | some s => !s.isEmpty
  | none => false

/-- The fixed ordered keyword→reply table of getFallbackResponse.  The
"time" reply interpolates new Date().toLocaleTimeString(); that formatted
clock string is passed in as `timeStr`. -/
def fallbackTable (timeStr : String) : List (String × String) :=
  [("hello", "Hello! I am AURA, your AI study assistant. How can I help you today?"),
   ("hi", "Hi there! Ready to boost your productivity and learning?"),
   ("machine learning", "Machine learning is a branch of AI that enables computers to learn and make decisions from data without explicit programming."),
   ("programming", "Programming is the art of creating instructions for computers using languages like Python, JavaScript, or Java."),
   ("study", "Effective studying involves active recall, spaced repetition, and taking regular breaks. What subject are you working on?"),
   ("stress", "I can help you manage stress through the 40-minute work sessions and safe mode activation."),
   ("weather", "I cannot check weather, but I hope you have a productive day ahead!"),
   ("time", "It's currently around " ++ timeStr ++ "."),
   ("help", "I can assist with studies, manage your work sessions, activate AI Clone mode, and provide stress management support.")]

/-- The generic acknowledgement reply returned when no keyword matches. -/
def genericFallback : String :=
  "I understand what you're asking. How can I help you with your studies or productivity today?"

/-- getFallbackResponse: lower-case the message, scan the fixed ordered
table, return the first reply whose keyword is a substring, else the
generic acknowledgement. -/
def getFallbackResponse (message timeStr : String) : String :=
  let lowerMessage := lowercase message
  match (fallbackTable timeStr).find? (fun kv => strContains lowerMessage kv.1) with
  | some kv => kv.2
  | none => genericFallback

/-- The observable result of one getAIResponse invocation: the returned
text, the ordered list of providers actually called, and the value of
AI_APIS.currentActive after the call. -/
structure OrchResult where
  response : String
  attempts : List Provider
  active : Provider
deriving DecidableEq, Repr

/-- The `for (let backupAPI of AI_APIS.backup)` loop of getAIResponse:
walk the remaining backup providers; a provider is called only when its
credential is truthy; on the first truthy response set currentActive to
that provider and return its text.  `idx` counts provider calls already
made in this invocation (the oracle index); `acc` holds the attempts so
far in reverse. -/
def backupLoop (outcome : Nat → Provider → Option String) (keys : Keys)
    (msg timeStr : String) (active : Provider) :
    List Provider → Nat → List Provider → OrchResult
  | [], _, acc => ⟨getFallbackResponse msg timeStr, acc.reverse, active⟩
  | p :: rest, idx, acc =>
    if hasCred keys p then
      match outcome idx p with
      | some s =>
        if s.isEmpty then backupLoop outcome keys msg timeStr active rest (idx + 1) (p :: acc)
        else ⟨s, (p :: acc).reverse, p⟩
      | none => backupLoop outcome keys msg timeStr active rest (idx + 1) (p :: acc)
    else backupLoop outcome keys msg timeStr active rest idx acc

/-- getAIResponse: try the current preferred provider first (only when its
credential is truthy); if it is skipped or its call is falsy, run the
backup loop over AI_APIS.backup; if everything fails, return the local
fallback.  `active` is AI_APIS.currentActive on entry. -/
def getAIResponse (outcome : Nat → Provider → Option String) (keys : Keys)
    (active : Provider) (msg timeStr : String) : OrchResult :=
  if hasCred keys active then
    match outcome 0 active with
    | some s =>
      if s.isEmpty then backupLoop outcome keys msg timeStr active backupList 1 [active]
      else ⟨s, [active], active⟩
    | none => backupLoop outcome keys msg timeStr active backupList 1 [active]
  else backupLoop outcome keys msg timeStr active backupList 0 []

/-! ## Voice response wrapping -/

/-- generateVoiceResponse: wrap text in the prefix/suffix pair of the
given response type; an unknown type falls back to the conversation pair
(voiceResponses[responseType] || voiceResponses.conversation). -/
def generateVoiceResponse (text : String) (responseType : String) : String :=
  let pair : String × String :=
    if responseType = "conversation" then
      ("I understand what you're asking. ", " Is there anything else you'd like to know?")
    else if responseType = "scan" then
      ("I've scanned the document. ", " Would you like me to explain any specific part?")
    else if responseType = "timer" then
      ("Regarding your work session: ", " Keep up the great work!")
    else if responseType = "stress" then
      ("I'm here to help with your wellbeing. ", " Take your time and breathe deeply.")
    else
      ("I understand what you're asking. ", " Is there anything else you'd like to know?")
  pair.1 ++ text ++ pair.2

/-! ## Timer management system -/

/-- One entry of the activeTimers map (the timerData object built by
startWorkTimer and mutated in place by handleTimerComplete). -/
structure TimerData where
  startTime : Int
  duration : Int
  alarmCount : Nat
  isActive : Bool
  mode : String
  sessionNumber : Nat
deriving DecidableEq, Repr

/-- The activeTimers map: per-user timer records. -/
def Registry : Type := String → Option TimerData

/-- The empty activeTimers map at process start. -/
def emptyRegistry : Registry := fun _ => none

/-- Map.set on the registry. -/
def setTimer (reg : Registry) (userId : String) (t : TimerData) : Registry :=
  fun u => if u = userId then some t else reg u

/-- The JSON payload of the internal handlers, restricted to the fields the
stated properties examine (status, message, voiceMessage, suggestion,
timeLeft, alarmCount, sessionNumber, action, motivationalMessage). -/
structure Response where
  status : String
  message : String
  voiceMessage : Option String := none
  suggestion : Option String := none
  timeLeft : Option String := none
  alarmCount : Option Nat := none
  sessionNumber : Option Nat := none
  action : Option String := none
  motivationalMessage : Option String := none
deriving DecidableEq, Repr

/-- startWorkTimer: unconditionally installs a fresh timerData record for
the user (startTime = now, 40-minute duration, alarmCount 0, active) and
returns the timer_started payload. -/
def startWorkTimer (reg : Registry) (userId : String) (now : Int) : Response × Registry :=
  let timerData : TimerData :=
    { startTime := now
      duration := 40 * 60 * 1000
      alarmCount := 0
      isActive := true
      mode := "work"
      sessionNumber := 1 }
  ({ status := "timer_started"
     message := "Starting 40-minute focused work session with AI monitoring"
     sessionNumber := some 1 },
   setTimer reg userId timerData)

/-- getMotivationalMessage: threshold-based encouragement string. -/
def getMotivationalMessage (minutesLeft : Int) : String :=
  if minutesLeft > 30 then "Great start! You're in the flow zone."
  else if minutesLeft > 20 then "Halfway there! Keep up the excellent focus."
  else if minutesLeft > 10 then "Final stretch! You're doing amazing."
  else "Almost done! Finish strong!"

/-- padStart(2, '0') on a decimal numeral. -/
def pad2 (n : Nat) : String :=
  if n < 10 then "0" ++ toString n else toString n

/-- The core of handleTimerComplete, applied to the record the map lookup
produced (the JS function re-reads activeTimers.get(userId) and mutates
that same object in place): increment alarmCount; at two alarms deactivate
the session and report clone activation, otherwise reset startTime to now,
move to session 2 and report session completion. -/
def handleTimerCompleteCore (timer : TimerData) (reg : Registry) (userId : String)
    (now : Int) : Response × Registry :=
  let t1 : TimerData := { timer with alarmCount := timer.alarmCount + 1 }
  if t1.alarmCount ≥ 2 then
    let t2 : TimerData := { t1 with isActive := false }
    ({ status := "ai_clone_activated"
       message := "Outstanding! You've completed 80 minutes of focused work. AI Clone is now taking over your background tasks."
       alarmCount := some t2.alarmCount
       action := some "clone_mode" },
     setTimer reg userId t2)
  else
    let t2 : TimerData := { t1 with sessionNumber := 2, startTime := now }
    ({ status := "session_complete"
       message := "Excellent! Session " ++ toString (t2.sessionNumber - 1) ++ " completed. Take a 5-minute break, then we'll start session 2."
       alarmCount := some t2.alarmCount },
     setTimer reg userId t2)

/-- handleTimerComplete as written in the source: looks the record up in
the map; `none` models the TypeError the JS would raise on a missing
record (its only caller guards the lookup). -/
def handleTimerComplete (reg : Registry) (userId : String) (now : Int) :
    Option (Response × Registry) :=
  (reg userId).map (fun timer => handleTimerCompleteCore timer reg userId now)

/-- checkTimerStatus: no record or an inactive record gives the
no_active_timer payload and leaves the map untouched; an active record
whose remaining time has reached zero is completed; otherwise the active
payload with remaining time, progress message and encouragement. -/
def checkTimerStatus (reg : Registry) (userId : String) (now : Int) : Response × Registry :=
  match reg userId with
  | none =>
    ({ status := "no_active_timer"
       message := "No active work session. Start one to begin productive studying!"
       suggestion := some "Try: \"start 40 minute session\" or \"begin work timer\"" },
     reg)
  | some timer =>
    if !timer.isActive then
      ({ status := "no_active_timer"
         message := "No active work session. Start one to begin productive studying!"
         suggestion := some "Try: \"start 40 minute session\" or \"begin work timer\"" },
       reg)
    else
      let elapsed : Int := now - timer.startTime
      let remaining : Int := max 0 (timer.duration - elapsed)
      let minutes : Nat := remaining.toNat / 60000
      let seconds : Nat := (remaining.toNat % 60000) / 1000
      if remaining ≤ 0 then
        handleTimerCompleteCore timer reg userId now
      else
        ({ status := "active"
           timeLeft := some (pad2 minutes ++ ":" ++ pad2 seconds)
           sessionNumber := some timer.sessionNumber
           message := "Work session " ++ toString timer.sessionNumber ++ " in progress. " ++ toString minutes ++ " minutes " ++ toString seconds ++ " seconds remaining."
           motivationalMessage := some (getMotivationalMessage minutes) },
         reg)

/-! ## Stateless handlers -/

/-- activateSafeMode (the Math.random stress level is outside the model). -/
def activateSafeMode : Response :=
  { status := "safe_mode_active"
    message := "Safe Mode activated. Detecting elevated stress levels - let's take care of your wellbeing." }

/-- activateAIClone: cloneCapabilities[mode] || cloneCapabilities.standard. -/
def activateAIClone (mode : String) : Response :=
  if mode = "advanced" then
    { status := "advanced_clone_active"
      message := "Advanced AI Clone mode engaged - handling complex cognitive tasks." }
  else
    { status := "clone_activated"
      message := "AI Clone activated and working autonomously in background." }

/-! ## Command router -/

/-- Session-start triggers (branch 1 of handleSpecialCommands). -/
def sessionStartTrigger (lower : String) : Bool :=
  strContains lower "start work" || strContains lower "40 minute" || strContains lower "begin session"

/-- Timer-status triggers (branch 2). -/
def timerStatusTrigger (lower : String) : Bool :=
  strContains lower "timer status" || strContains lower "time left" || strContains lower "how much time"

/-- Stress / safe-mode triggers (branch 3). -/
def stressTrigger (lower : String) : Bool :=
  strContains lower "stressed" || strContains lower "anxious" || strContains lower "overwhelmed" || strContains lower "safe mode"

/-- Clone / background-task triggers (branch 4). -/
def cloneTrigger (lower : String) : Bool :=
  strContains lower "clone" || strContains lower "background tasks" || strContains lower "auto work"

/-- Scan-intent triggers (branch 5). -/
def scanTrigger (lower : String) : Bool :=
  strContains lower "scan" || strContains lower "read document" || strContains lower "analyze"

/-- Mode-switch trigger (branch 6). -/
def multiModeTrigger (lower : String) : Bool :=
  strContains lower "multi mode"

/-- handleSpecialCommands: test the lower-cased command against the six
trigger sets in source order, first match wins; `none` means no trigger
matched and the caller delegates to getAIResponse. -/
def handleSpecialCommands (command userId : String) (reg : Registry) (now : Int) :
    Option (Response × Registry) :=
  let lowerCommand := lowercase command
  if sessionStartTrigger lowerCommand then
    let (result, reg2) := startWorkTimer reg userId now
    some ({ result with voiceMessage := some (generateVoiceResponse result.message "timer") }, reg2)
  else if timerStatusTrigger lowerCommand then
    let (result, reg2) := checkTimerStatus reg userId now
    some ({ result with voiceMessage := some (generateVoiceResponse result.message "timer") }, reg2)
  else if stressTrigger lowerCommand then
    let result := activateSafeMode
    some ({ result with voiceMessage := some (generateVoiceResponse result.message "stress") }, reg)
  else if cloneTrigger lowerCommand then
    let mode := if strContains lowerCommand "advanced" then "advanced" else "standard"
    let result := activateAIClone mode
    some ({ result with voiceMessage := some (generateVoiceResponse result.message "conversation") }, reg)
  else if scanTrigger lowerCommand then
    some ({ status := "scan_mode_ready"
            message := "I am ready to scan and analyze documents. Please show me what you would like me to read."
            voiceMessage := some "I am ready to scan documents for you. Please show the document to your camera and I will read and analyze it for you."
            action := some "prepare_camera_scan" },
          reg)
  else if multiModeTrigger lowerCommand then
    let result : Response :=
      { status := "multi_mode_active"
        message := "Multi Mode activated! All AURA systems online: Voice AI, Timer, Stress Monitor, Document Scanner, and AI Clone." }
    some ({ result with voiceMessage := some (generateVoiceResponse result.message "conversation") }, reg)
  else
    none

/-- The router as the specification states it: an explicit ordered list of
(trigger, handler) pairs evaluated first-match-wins, no-match delegating.
Written from the spec's matching-policy words, to be compared with
handleSpecialCommands. -/
def routeSpec (command userId : String) (reg : Registry) (now : Int) :
    Option (Response × Registry) :=
  let lower := lowercase command
  let handlers : List ((String → Bool) × (Unit → Response × Registry)) :=
    [(sessionStartTrigger, fun _ =>
        let (result, reg2) := startWorkTimer reg userId now
        ({ result with voiceMessage := some (generateVoiceResponse result.message "timer") }, reg2)),
     (timerStatusTrigger, fun _ =>
        let (result, reg2) := checkTimerStatus reg userId now
        ({ result with voiceMessage := some (generateVoiceResponse result.message "timer") }, reg2)),
     (stressTrigger, fun _ =>
        ({ activateSafeMode with voiceMessage := some (generateVoiceResponse activateSafeMode.message "stress") }, reg)),
     (cloneTrigger, fun _ =>
        let result := activateAIClone (if strContains lower "advanced" then "advanced" else "standard")
        ({ result with voiceMessage := some (generateVoiceResponse result.message "conversation") }, reg)),
     (scanTrigger, fun _ =>
        ({ status := "scan_mode_ready"
           message := "I am ready to scan and analyze documents. Please show me what you would like me to read."
           voiceMessage := some "I am ready to scan documents for you. Please show the document to your camera and I will read and analyze it for you."
           action := some "prepare_camera_scan" },
         reg)),
     (multiModeTrigger, fun _ =>
        let result : Response :=
          { status := "multi_mode_active"
            message := "Multi Mode activated! All AURA systems online: Voice AI, Timer, Stress Monitor, Document Scanner, and AI Clone." }
        ({ result with voiceMessage := some (generateVoiceResponse result.message "conversation") }, reg))]
  handlers.findSome? (fun th => if th.1 lower then some (th.2 ()) else none)

/-! ## Operation sequences over the timer registry -/

/-- One externally reachable operation on the activeTimers map. -/
inductive TimerOp where
  | start (userId : String) (now : Int)
  | poll (userId : String) (now : Int)

/-- The registry after one operation. -/
def stepTimer (reg : Registry) : TimerOp → Registry
  | .start u now => (startWorkTimer reg u now).2
  | .poll u now => (checkTimerStatus reg u now).2

/-- The registry after a sequence of operations from process start. -/
def runTimerOps (ops : List TimerOp) : Registry :=
  ops.foldl stepTimer emptyRegistry

/-- The alarm-count invariant of the timer registry. -/
def TimerInv (reg : Registry) : Prop :=
  ∀ u t, reg u = some t → t.alarmCount ≤ 2 ∧ (t.alarmCount = 2 → t.isActive = false)

/-! ## Helper lemmas: orchestrator -/

theorem ne_empty_of_isEmpty_false {s : String} (h : s.isEmpty = false) : s ≠ "" := by
  intro he
  subst he
  exact absurd h (by decide)

theorem fallbackTable_replies_ne (ts : String) : ∀ kv ∈ fallbackTable ts, kv.2 ≠ "" := by
  intro kv hm
  simp only [fallbackTable, List.mem_cons, List.not_mem_nil, or_false] at hm
  rcases hm with h|h|h|h|h|h|h|h|h <;> subst h <;> intro he
  all_goals try exact absurd he (by decide)
  have hd := congrArg String.data he
  exact List.noConfusion
    (show ('I' : Char) :: (("t's currently around ".data ++ ts.data) ++ ".".data) = [] from hd)

theorem getFallbackResponse_ne (msg ts : String) : getFallbackResponse msg ts ≠ "" := by
  cases hf : (fallbackTable ts).find? (fun kv => strContains (lowercase msg) kv.1) with
  | none =>
    simp only [getFallbackResponse, hf]
    exact (by decide : genericFallback ≠ "")
  | some kv =>
    simp only [getFallbackResponse, hf]
    exact fallbackTable_replies_ne ts kv (List.mem_of_find?_eq_some hf)

theorem backupLoop_response_ne (outcome : Nat → Provider → Option String) (keys : Keys)
    (msg ts : String) (active : Provider) :
    ∀ (l : List Provider) (idx : Nat) (acc : List Provider),
      (backupLoop outcome keys msg ts active l idx acc).response ≠ "" := by
  intro l
  induction l with
  | nil => intro idx acc; exact getFallbackResponse_ne msg ts
  | cons p rest ih =>
    intro idx acc
    simp only [backupLoop]
    split
    · split
      next s houtcome =>
        split
        next => exact ih _ _
        next hs => exact ne_empty_of_isEmpty_false (by simpa using hs)
      next => exact ih _ _
    · exact ih _ _

theorem backupLoop_attempts (outcome : Nat → Provider → Option String) (keys : Keys)
    (msg ts : String) (active : Provider) :
    ∀ (l : List Provider) (idx : Nat) (acc : List Provider),
      ∃ tail, (backupLoop outcome keys msg ts active l idx acc).attempts = acc.reverse ++ tail ∧
        List.Sublist tail l ∧ ∀ q ∈ tail, hasCred keys q = true := by
  intro l
  induction l with
  | nil =>
    intro idx acc
    exact ⟨[], by simp [backupLoop], List.nil_sublist _, by simp⟩
  | cons p rest ih =>
    intro idx acc
    simp only [backupLoop]
    split
    next hc =>
      split
      next s houtcome =>
        split
        next =>
          obtain ⟨tail, h1, h2, h3⟩ := ih (idx + 1) (p :: acc)
          refine ⟨p :: tail, ?_, List.Sublist.cons₂ p h2, ?_⟩
          · simpa [List.reverse_cons, List.append_assoc] using h1
          · intro q hq
            rcases List.mem_cons.mp hq with h|h
            · subst h; exact hc
            · exact h3 q h
        next =>
          refine ⟨[p], by simp [List.reverse_cons], List.Sublist.cons₂ p (List.nil_sublist _), ?_⟩
          intro q hq
          rcases List.mem_cons.mp hq with h|h
          · subst h; exact hc
          · exact absurd h (List.not_mem_nil q)
      next =>
        obtain ⟨tail, h1, h2, h3⟩ := ih (idx + 1) (p :: acc)
        refine ⟨p :: tail, ?_, List.Sublist.cons₂ p h2, ?_⟩
        · simpa [List.reverse_cons, List.append_assoc] using h1
        · intro q hq
          rcases List.mem_cons.mp hq with h|h
          · subst h; exact hc
          · exact h3 q h
    next hc =>
      obtain ⟨tail, h1, h2, h3⟩ := ih idx acc
      exact ⟨tail, h1, List.Sublist.cons p h2, h3⟩

theorem backupLoop_active (outcome : Nat → Provider → Option String) (keys : Keys)
    (msg ts : String) (active : Provider) :
    ∀ (l : List Provider) (idx : Nat) (acc : List Provider) (r : OrchResult),
      backupLoop outcome keys msg ts active l idx acc = r →
      r.active = active ∨
        (r.active ∈ l ∧ hasCred keys r.active = true ∧
          ∃ i s, outcome i r.active = some s ∧ s.isEmpty = false ∧ r.response = s) := by
  intro l
  induction l with
  | nil =>
    intro idx acc r hr
    subst hr
    exact Or.inl rfl
  | cons p rest ih =>
    intro idx acc r hr
    simp only [backupLoop] at hr
    split at hr
    next hc =>
      split at hr
      next s houtcome =>
        split at hr
        next =>
          rcases ih _ _ _ hr with h | ⟨h1, h2, h3⟩
          · exact Or.inl h
          · exact Or.inr ⟨List.mem_cons_of_mem p h1, h2, h3⟩
        next hs =>
          subst hr
          refine Or.inr ⟨List.mem_cons_self p rest, hc, idx, s, houtcome, ?_, rfl⟩
          simpa using hs
      next =>
        rcases ih _ _ _ hr with h | ⟨h1, h2, h3⟩
        · exact Or.inl h
        · exact Or.inr ⟨List.mem_cons_of_mem p h1, h2, h3⟩
    next hc =>
      rcases ih _ _ _ hr with h | ⟨h1, h2, h3⟩
      · exact Or.inl h
      · exact Or.inr ⟨List.mem_cons_of_mem p h1, h2, h3⟩

theorem backupLoop_allfail (outcome : Nat → Provider → Option String) (keys : Keys)
    (msg ts : String) (active : Provider)
    (hout : ∀ i p, truthy (outcome i p) = false) :
    ∀ (l : List Provider) (idx : Nat) (acc : List Provider),
      backupLoop outcome keys msg ts active l idx acc =
        ⟨getFallbackResponse msg ts, acc.reverse ++ l.filter (fun p => hasCred keys p), active⟩ := by
  intro l
  induction l with
  | nil =>
    intro idx acc
    simp [backupLoop]
  | cons p rest ih =>
    intro idx acc
    simp only [backupLoop]
    split
    next hc =>
      have htr := hout idx p
      split
      next s houtcome =>
        rw [houtcome] at htr
        have hs : s.isEmpty = true := by
          simpa [truthy] using htr
        rw [if_pos hs, ih (idx + 1) (p :: acc)]
        simp [List.filter_cons, hc, List.reverse_cons, List.append_assoc]
      next =>
        rw [ih (idx + 1) (p :: acc)]
        simp [List.filter_cons, hc, List.reverse_cons, List.append_assoc]
    next hc =>
      rw [ih idx acc]
      simp [List.filter_cons, hc]

theorem backupLoop_first_success (outcome : Nat → Provider → Option String) (keys : Keys)
    (msg ts : String) (active p : Provider) (l₂ : List Provider)
    (hp : hasCred keys p = true) :
    ∀ (l₁ : List Provider) (idx : Nat) (acc : List Provider),
      (∀ i q, q ∈ l₁ → truthy (outcome i q) = false) →
      truthy (outcome (idx + (l₁.filter (fun q => hasCred keys q)).length) p) = true →
      (backupLoop outcome keys msg ts active (l₁ ++ p :: l₂) idx acc).active = p := by
  intro l₁
  induction l₁ with
  | nil =>
    intro idx acc hfail hsucc
    simp only [List.filter_nil, List.length_nil, Nat.add_zero] at hsucc
    simp only [List.nil_append, backupLoop]
    rw [if_pos hp]
    split
    next s houtcome =>
      rw [houtcome] at hsucc
      have hs : s.isEmpty = false := by simpa [truthy] using hsucc
      rw [if_neg (by simp [hs])]
    next houtcome =>
      rw [houtcome] at hsucc
      simp [truthy] at hsucc
  | cons q rest ih =>
    intro idx acc hfail hsucc
    simp only [List.cons_append, backupLoop]
    split
    next hcq =>
      have hlen : ((q :: rest).filter (fun r => hasCred keys r)).length =
          (rest.filter (fun r => hasCred keys r)).length + 1 := by
        simp [List.filter_cons, hcq]
      rw [hlen] at hsucc
      have harith : idx + ((List.filter (fun r => hasCred keys r) rest).length + 1) =
          idx + 1 + (List.filter (fun r => hasCred keys r) rest).length := by
        omega
      rw [harith] at hsucc
      split
      next s houtcome =>
        split
        next hs =>
          exact ih (idx + 1) (q :: acc)
            (fun i r hr => hfail i r (List.mem_cons_of_mem q hr)) hsucc
        next hs =>
          have hq := hfail idx q (List.mem_cons_self q rest)
          rw [houtcome] at hq
          simp [truthy] at hq
          exact absurd hq hs
      next houtcome =>
        exact ih (idx + 1) (q :: acc)
          (fun i r hr => hfail i r (List.mem_cons_of_mem q hr)) hsucc
    next hcq =>
      have hlen : ((q :: rest).filter (fun r => hasCred keys r)).length =
          (rest.filter (fun r => hasCred keys r)).length := by
        simp [List.filter_cons, hcq]
      rw [hlen] at hsucc
      exact ih idx acc (fun i r hr => hfail i r (List.mem_cons_of_mem q hr)) hsucc

theorem backupLoop_nocred (outcome : Nat → Provider → Option String) (keys : Keys)
    (msg ts : String) (active : Provider)
    (hk : ∀ p, hasCred keys p = false) :
    ∀ (l : List Provider) (idx : Nat) (acc : List Provider),
      backupLoop outcome keys msg ts active l idx acc =
        ⟨getFallbackResponse msg ts, acc.reverse, active⟩ := by
  intro l
  induction l with
  | nil => intro idx acc; simp [backupLoop]
  | cons p rest ih =>
    intro idx acc
    simp only [backupLoop, hk p]
    exact ih idx acc

/-! ## Claim theorems: orchestrator -/

/-- C1: for every input message, credential configuration, preferred
provider and combination of provider-call outcomes (success with text,
empty text, transport error, non-OK status, malformed payload — the last
three all surface as a null call result), getAIResponse returns a
non-empty string; its totality as a Lean function models that it never
throws to its caller. -/
theorem getAIResponse_always_nonempty (outcome : Nat → Provider → Option String)
    (keys : Keys) (active : Provider) (msg ts : String) :
    (getAIResponse outcome keys active msg ts).response ≠ "" := by
  unfold getAIResponse
  split
  · split
    next s houtcome =>
      split
      next => exact backupLoop_response_ne outcome keys msg ts active backupList 1 [active]
      next hs => exact ne_empty_of_isEmpty_false (by simpa using hs)
    next => exact backupLoop_response_ne outcome keys msg ts active backupList 1 [active]
  · exact backupLoop_response_ne outcome keys msg ts active backupList 0 []

/-- C2 counterexample: when the preferred provider is openai (after an
earlier sticky fallback), every provider has a credential and every call
fails, the invocation attempts openai twice (once as preferred, once again
from the fixed backup list) and never attempts groq even though groq holds
a credential — refuting both "excluding the provider just tried / no
provider is attempted twice" and "every configured provider other than the
one just tried is eligible". -/
theorem getAIResponse_attempts_repeat :
    (getAIResponse (fun _ _ => none) ⟨"k", "k", "k", "k"⟩ Provider.openai "m" "t").attempts =
      [Provider.openai, Provider.openai, Provider.huggingface, Provider.gemini] ∧
    ¬ (getAIResponse (fun _ _ => none) ⟨"k", "k", "k", "k"⟩ Provider.openai "m" "t").attempts.Nodup ∧
    Provider.groq ∉ (getAIResponse (fun _ _ => none) ⟨"k", "k", "k", "k"⟩ Provider.openai "m" "t").attempts := by
  decide

/-- C2 (amended): when the preferred provider lacks a credential or its
call fails, getAIResponse tries the providers of the fixed backup list
[openai, huggingface, gemini] in that order, skipping any without a
credential; the provider just tried is not excluded from that list (so it
can be attempted a second time) and groq is never a fallback candidate;
when every call fails, exactly the credentialed backup providers are
attempted after the optional preferred attempt. -/
theorem getAIResponse_backup_policy (outcome : Nat → Provider → Option String)
    (keys : Keys) (active : Provider) (msg ts : String) :
    (∃ tail, (getAIResponse outcome keys active msg ts).attempts =
        (if hasCred keys active then [active] else []) ++ tail ∧
      List.Sublist tail backupList ∧ (∀ q ∈ tail, hasCred keys q = true) ∧
      Provider.groq ∉ tail) ∧
    ((∀ i p, truthy (outcome i p) = false) →
      (getAIResponse outcome keys active msg ts).attempts =
        (if hasCred keys active then [active] else []) ++
          backupList.filter (fun p => hasCred keys p)) := by
  have hgroq : Provider.groq ∉ backupList := by decide
  constructor
  · unfold getAIResponse
    split
    next hc =>
      split
      next s houtcome =>
        split
        next =>
          obtain ⟨tail, h1, h2, h3⟩ := backupLoop_attempts outcome keys msg ts active backupList 1 [active]
          exact ⟨tail, by simpa using h1, h2, h3, fun hmem => hgroq (h2.subset hmem)⟩
        next =>
          exact ⟨[], by simp, List.nil_sublist _, by simp, by simp⟩
      next =>
        obtain ⟨tail, h1, h2, h3⟩ := backupLoop_attempts outcome keys msg ts active backupList 1 [active]
        exact ⟨tail, by simpa using h1, h2, h3, fun hmem => hgroq (h2.subset hmem)⟩
    next hc =>
      obtain ⟨tail, h1, h2, h3⟩ := backupLoop_attempts outcome keys msg ts active backupList 0 []
      exact ⟨tail, by simpa using h1, h2, h3, fun hmem => hgroq (h2.subset hmem)⟩
  · intro hall
    unfold getAIResponse
    split
    next hc =>
      split
      next s houtcome =>
        have htr := hall 0 active
        rw [houtcome] at htr
        have hs : s.isEmpty = true := by simpa [truthy] using htr
        rw [if_pos hs, backupLoop_allfail outcome keys msg ts active hall]
        simp
      next =>
        rw [backupLoop_allfail outcome keys msg ts active hall]
        simp
    next hc =>
      rw [backupLoop_allfail outcome keys msg ts active hall]
      simp

/-- C2 amended witness: with only an openai credential and every call
failing, the one attempt is openai (preferred groq is skipped, backups are
filtered to the credentialed ones). -/
theorem getAIResponse_backup_policy_witness :
    (getAIResponse (fun _ _ => none) ⟨"", "k", "", ""⟩ Provider.groq "m" "t").attempts =
      (if hasCred ⟨"", "k", "", ""⟩ Provider.groq then [Provider.groq] else []) ++
        backupList.filter (fun p => hasCred ⟨"", "k", "", ""⟩ p) :=
  (getAIResponse_backup_policy (fun _ _ => none) ⟨"", "k", "", ""⟩ Provider.groq "m" "t").2
    (fun _ _ => rfl)

/-- C3: the preferred-provider pointer is always in the configured set
(it stays put or becomes a backup-list member); it is unchanged whenever
the preferred provider is credentialed and its call is truthy; it moves to
p only if p is credentialed and some fallback call to p returned the very
text the invocation answers with; it is never mutated on a call in which
no provider call succeeds; and conversely, whenever the preferred provider
is skipped or its call fails and p is the first backup provider whose
(credentialed) call succeeds — every earlier backup call failing — the
pointer is set to p. -/
theorem getAIResponse_preferred_pointer (outcome : Nat → Provider → Option String)
    (keys : Keys) (active : Provider) (msg ts : String) :
    ((getAIResponse outcome keys active msg ts).active = active ∨
      (getAIResponse outcome keys active msg ts).active ∈ backupList) ∧
    (hasCred keys active = true → truthy (outcome 0 active) = true →
      (getAIResponse outcome keys active msg ts).active = active) ∧
    ((getAIResponse outcome keys active msg ts).active ≠ active →
      hasCred keys (getAIResponse outcome keys active msg ts).active = true ∧
      ∃ i s, outcome i (getAIResponse outcome keys active msg ts).active = some s ∧
        s.isEmpty = false ∧ (getAIResponse outcome keys active msg ts).response = s) ∧
    ((∀ i p, truthy (outcome i p) = false) →
      (getAIResponse outcome keys active msg ts).active = active) ∧
    (∀ (l₁ : List Provider) (p : Provider) (l₂ : List Provider),
      backupList = l₁ ++ p :: l₂ →
      hasCred keys p = true →
      (hasCred keys active = false ∨ truthy (outcome 0 active) = false) →
      (∀ i q, q ∈ l₁ → truthy (outcome i q) = false) →
      truthy (outcome ((if hasCred keys active then 1 else 0) +
        (l₁.filter (fun q => hasCred keys q)).length) p) = true →
      (getAIResponse outcome keys active msg ts).active = p) := by
  have key : (getAIResponse outcome keys active msg ts).active = active ∨
      ((getAIResponse outcome keys active msg ts).active ∈ backupList ∧
        hasCred keys (getAIResponse outcome keys active msg ts).active = true ∧
        ∃ i s, outcome i (getAIResponse outcome keys active msg ts).active = some s ∧
          s.isEmpty = false ∧ (getAIResponse outcome keys active msg ts).response = s) := by
    unfold getAIResponse
    split
    · split
      next s houtcome =>
        split
        next => exact backupLoop_active outcome keys msg ts active backupList 1 [active] _ rfl
        next => exact Or.inl rfl
      next => exact backupLoop_active outcome keys msg ts active backupList 1 [active] _ rfl
    · exact backupLoop_active outcome keys msg ts active backupList 0 [] _ rfl
  refine ⟨key.imp id (fun h => h.1), ?_, ?_, ?_, ?_⟩
  · intro hc ht
    unfold getAIResponse
    rw [if_pos hc]
    split
    next s houtcome =>
      rw [houtcome] at ht
      have hs : s.isEmpty = false := by simpa [truthy] using ht
      rw [if_neg (by simp [hs])]
    next houtcome =>
      rw [houtcome] at ht
      simp [truthy] at ht
  · intro hne
    rcases key with h | ⟨_, h2, h3⟩
    · exact absurd h hne
    · exact ⟨h2, h3⟩
  · intro hall
    rcases key with h | ⟨_, _, i, s, hsome, hs, _⟩
    · exact h
    · have := hall i (getAIResponse outcome keys active msg ts).active
      rw [hsome] at this
      simp [truthy, hs] at this
  · intro l₁ p l₂ hsplit hp hprim hfail hsucc
    by_cases hc : hasCred keys active = true
    · have ht : truthy (outcome 0 active) = false := by
        rcases hprim with h | h
        · rw [hc] at h
          exact Bool.noConfusion h
        · exact h
      rw [if_pos hc] at hsucc
      unfold getAIResponse
      rw [if_pos hc]
      split
      next s houtcome =>
        rw [houtcome] at ht
        have hs : s.isEmpty = true := by simpa [truthy] using ht
        rw [if_pos hs, hsplit]
        exact backupLoop_first_success outcome keys msg ts active p l₂ hp l₁ 1 [active]
          hfail hsucc
      next houtcome =>
        rw [hsplit]
        exact backupLoop_first_success outcome keys msg ts active p l₂ hp l₁ 1 [active]
          hfail hsucc
    · rw [if_neg hc] at hsucc
      unfold getAIResponse
      rw [if_neg hc, hsplit]
      exact backupLoop_first_success outcome keys msg ts active p l₂ hp l₁ 0 []
        hfail hsucc

/-- C3 witness: with a credentialed preferred groq whose call fails and an
openai whose call succeeds, the pointer is promoted to openai. -/
theorem getAIResponse_preferred_pointer_witness :
    (getAIResponse (fun _ q => if q = Provider.openai then some "ok" else none)
      ⟨"k", "k", "k", "k"⟩ Provider.groq "m" "t").active = Provider.openai :=
  (getAIResponse_preferred_pointer (fun _ q => if q = Provider.openai then some "ok" else none)
    ⟨"k", "k", "k", "k"⟩ Provider.groq "m" "t").2.2.2.2
    [] Provider.openai [Provider.huggingface, Provider.gemini] rfl (by decide)
    (Or.inr (by decide)) (fun i q hq => absurd hq (List.not_mem_nil q)) (by decide)

/-- C7: if no provider has a credential, or every call fails, the result
is the local fallback: the reply of the first table entry whose keyword is
a substring of the lower-cased message, or the generic acknowledgement. -/
theorem getAIResponse_exhausted_fallback (outcome : Nat → Provider → Option String)
    (keys : Keys) (active : Provider) (msg ts : String)
    (h : (∀ p, hasCred keys p = false) ∨ (∀ i p, truthy (outcome i p) = false)) :
    (getAIResponse outcome keys active msg ts).response = getFallbackResponse msg ts ∧
    getFallbackResponse msg ts =
      (((fallbackTable ts).find? (fun kv => strContains (lowercase msg) kv.1)).map
        Prod.snd).getD genericFallback := by
  constructor
  · rcases h with hk | hall
    · unfold getAIResponse
      rw [if_neg (by simp [hk active]), backupLoop_nocred outcome keys msg ts active hk]
    · unfold getAIResponse
      split
      next hc =>
        split
        next s houtcome =>
          have htr := hall 0 active
          rw [houtcome] at htr
          have hs : s.isEmpty = true := by simpa [truthy] using htr
          rw [if_pos hs, backupLoop_allfail outcome keys msg ts active hall]
        next => rw [backupLoop_allfail outcome keys msg ts active hall]
      next => rw [backupLoop_allfail outcome keys msg ts active hall]
  · cases hf : (fallbackTable ts).find? (fun kv => strContains (lowercase msg) kv.1) <;>
      simp [getFallbackResponse, hf]

/-- C7 witness: with no credentials at all, a "hello" message is answered
by the fallback responder. -/
theorem getAIResponse_exhausted_fallback_witness :
    (getAIResponse (fun _ _ => none) ⟨"", "", "", ""⟩ Provider.groq "hello" "12:00").response =
      getFallbackResponse "hello" "12:00" :=
  (getAIResponse_exhausted_fallback (fun _ _ => none) ⟨"", "", "", ""⟩ Provider.groq "hello" "12:00"
    (Or.inr (fun _ _ => rfl))).1

/-- C8: a provider is called only when its credential is present — every
member of the attempts list of any invocation passes the hasCred check. -/
theorem getAIResponse_requires_credential (outcome : Nat → Provider → Option String)
    (keys : Keys) (active : Provider) (msg ts : String) :
    ∀ p, p ∈ (getAIResponse outcome keys active msg ts).attempts → hasCred keys p = true := by
  intro p hp
  unfold getAIResponse at hp
  split at hp
  next hc =>
    split at hp
    next s houtcome =>
      split at hp
      next =>
        obtain ⟨tail, h1, h2, h3⟩ := backupLoop_attempts outcome keys msg ts active backupList 1 [active]
        rw [h1] at hp
        rcases List.mem_append.mp hp with hmem | hmem
        · have : p = active := by simpa using hmem
          subst this; exact hc
        · exact h3 p hmem
      next =>
        have : p = active := by simpa using hp
        subst this; exact hc
    next =>
      obtain ⟨tail, h1, h2, h3⟩ := backupLoop_attempts outcome keys msg ts active backupList 1 [active]
      rw [h1] at hp
      rcases List.mem_append.mp hp with hmem | hmem
      · have : p = active := by simpa using hmem
        subst this; exact hc
      · exact h3 p hmem
  next hc =>
    obtain ⟨tail, h1, h2, h3⟩ := backupLoop_attempts outcome keys msg ts active backupList 0 []
    rw [h1] at hp
    rcases List.mem_append.mp hp with hmem | hmem
    · simp at hmem
    · exact h3 p hmem

/-- C8 witness: with only a groq credential, groq is attempted and indeed
passes the credential check. -/
theorem getAIResponse_requires_credential_witness :
    hasCred ⟨"k", "", "", ""⟩ Provider.groq = true :=
  getAIResponse_requires_credential (fun _ _ => none) ⟨"k", "", "", ""⟩ Provider.groq "m" "t"
    Provider.groq (by decide)

/-! ## Helper lemmas: timer registry -/

theorem startWorkTimer_lookup (reg : Registry) (u : String) (now : Int) :
    (startWorkTimer reg u now).2 u = some ⟨now, 2400000, 0, true, "work", 1⟩ := by
  simp [startWorkTimer, setTimer]

theorem handleTimerCompleteCore_preserves_inv (timer : TimerData) (reg : Registry)
    (u : String) (now : Int) (h : TimerInv reg) (hcount : timer.alarmCount ≤ 1) :
    TimerInv (handleTimerCompleteCore timer reg u now).2 := by
  intro v t hv
  simp only [handleTimerCompleteCore] at hv
  by_cases hge : timer.alarmCount + 1 ≥ 2
  · rw [if_pos hge] at hv
    simp only [setTimer] at hv
    by_cases hvu : v = u
    · rw [if_pos hvu] at hv
      cases hv
      refine ⟨?_, fun _ => rfl⟩
      show timer.alarmCount + 1 ≤ 2
      omega
    · rw [if_neg hvu] at hv
      exact h v t hv
  · rw [if_neg hge] at hv
    simp only [setTimer] at hv
    by_cases hvu : v = u
    · rw [if_pos hvu] at hv
      cases hv
      constructor
      · show timer.alarmCount + 1 ≤ 2
        omega
      · intro h2
        have h2' : timer.alarmCount + 1 = 2 := h2
        exact absurd (by omega : timer.alarmCount + 1 ≥ 2) hge
    · rw [if_neg hvu] at hv
      exact h v t hv

theorem startWorkTimer_preserves_inv (reg : Registry) (u : String) (now : Int)
    (h : TimerInv reg) : TimerInv (startWorkTimer reg u now).2 := by
  intro v t hv
  simp only [startWorkTimer, setTimer] at hv
  by_cases hvu : v = u
  · rw [if_pos hvu] at hv
    cases hv
    refine ⟨?_, ?_⟩
    · show (0 : Nat) ≤ 2
      decide
    · intro hh
      exact absurd (show (0 : Nat) = 2 from hh) (by decide)
  · rw [if_neg hvu] at hv
    exact h v t hv

theorem checkTimerStatus_preserves_inv (reg : Registry) (u : String) (now : Int)
    (h : TimerInv reg) : TimerInv (checkTimerStatus reg u now).2 := by
  cases hreg : reg u with
  | none =>
    simp only [checkTimerStatus, hreg]
    exact h
  | some timer =>
    by_cases hact : timer.isActive = true
    · by_cases hrem : max 0 (timer.duration - (now - timer.startTime)) ≤ 0
      · have hred : (checkTimerStatus reg u now).2 =
            (handleTimerCompleteCore timer reg u now).2 := by
          simp [checkTimerStatus, hreg, hact, hrem]
        rw [hred]
        obtain ⟨hle, h2i⟩ := h u timer hreg
        have hne2 : timer.alarmCount ≠ 2 := by
          intro hh
          rw [h2i hh] at hact
          exact Bool.noConfusion hact
        exact handleTimerCompleteCore_preserves_inv timer reg u now h (by omega)
      · have hred : (checkTimerStatus reg u now).2 = reg := by
          simp [checkTimerStatus, hreg, hact, hrem]
        rw [hred]
        exact h
    · have hact' : timer.isActive = false := by
        cases hb : timer.isActive
        · rfl
        · exact absurd hb hact
      simp only [checkTimerStatus, hreg, hact']
      exact h

theorem stepTimer_preserves_inv (reg : Registry) (op : TimerOp) (h : TimerInv reg) :
    TimerInv (stepTimer reg op) := by
  cases op with
  | start u now => exact startWorkTimer_preserves_inv reg u now h
  | poll u now => exact checkTimerStatus_preserves_inv reg u now h

/-! ## Claim theorems: timer registry and router -/

/-- C9: a user with no timer record, or an inactive one, polls to the
no_active_timer payload (with its suggestion message) and the registry is
returned untouched — no record created, none mutated. -/
theorem checkTimerStatus_no_active (reg : Registry) (u : String) (now : Int)
    (h : reg u = none ∨ ∃ t, reg u = some t ∧ t.isActive = false) :
    checkTimerStatus reg u now =
      ({ status := "no_active_timer"
         message := "No active work session. Start one to begin productive studying!"
         suggestion := some "Try: \"start 40 minute session\" or \"begin work timer\"" },
       reg) := by
  rcases h with h | ⟨t, ht, hact⟩
  · simp [checkTimerStatus, h]
  · simp [checkTimerStatus, ht, hact]

/-- C9 witness: polling a user absent from the registry. -/
theorem checkTimerStatus_no_active_witness :
    (checkTimerStatus emptyRegistry "u" 0).1.status = "no_active_timer" :=
  congrArg (fun x => x.1.status) (checkTimerStatus_no_active emptyRegistry "u" 0 (Or.inl rfl))

/-- C4: starting a session and polling once the 2400-second (2400000 ms)
duration has elapsed reports session_complete with cycle count 1 and
resets the stored start instant to the poll time; a second poll a further
full period later reports ai_clone_activated with cycle count 2 and leaves
the session inactive. -/
theorem timer_two_cycle_lifecycle (reg : Registry) (u : String) (t0 now1 now2 : Int)
    (h1 : t0 + 2400000 ≤ now1) (h2 : now1 + 2400000 ≤ now2) :
    (checkTimerStatus (startWorkTimer reg u t0).2 u now1).1.status = "session_complete" ∧
    (checkTimerStatus (startWorkTimer reg u t0).2 u now1).1.alarmCount = some 1 ∧
    (checkTimerStatus (startWorkTimer reg u t0).2 u now1).2 u =
      some ⟨now1, 2400000, 1, true, "work", 2⟩ ∧
    (checkTimerStatus (checkTimerStatus (startWorkTimer reg u t0).2 u now1).2 u now2).1.status =
      "ai_clone_activated" ∧
    (checkTimerStatus (checkTimerStatus (startWorkTimer reg u t0).2 u now1).2 u now2).1.alarmCount =
      some 2 ∧
    ((checkTimerStatus (checkTimerStatus (startWorkTimer reg u t0).2 u now1).2 u now2).2 u).map
      (fun t => t.isActive) = some false := by
  have hrem1 : max 0 ((2400000 : Int) - (now1 - t0)) ≤ 0 := max_le le_rfl (by omega)
  have hstep1 : checkTimerStatus (startWorkTimer reg u t0).2 u now1 =
      handleTimerCompleteCore ⟨t0, 2400000, 0, true, "work", 1⟩
        ((startWorkTimer reg u t0).2) u now1 := by
    simp [checkTimerStatus, startWorkTimer_lookup, hrem1]
  have hc3 : (checkTimerStatus (startWorkTimer reg u t0).2 u now1).2 u =
      some ⟨now1, 2400000, 1, true, "work", 2⟩ := by
    rw [hstep1]
    simp [handleTimerCompleteCore, setTimer]
  have hrem2 : max 0 ((2400000 : Int) - (now2 - now1)) ≤ 0 := max_le le_rfl (by omega)
  have hstep2 : checkTimerStatus (checkTimerStatus (startWorkTimer reg u t0).2 u now1).2 u now2 =
      handleTimerCompleteCore ⟨now1, 2400000, 1, true, "work", 2⟩
        ((checkTimerStatus (startWorkTimer reg u t0).2 u now1).2) u now2 := by
    generalize hgen : (checkTimerStatus (startWorkTimer reg u t0).2 u now1).2 = R at hc3 ⊢
    simp [checkTimerStatus, hc3, hrem2]
  refine ⟨?_, ?_, hc3, ?_, ?_, ?_⟩
  · rw [hstep1]; simp [handleTimerCompleteCore]
  · rw [hstep1]; simp [handleTimerCompleteCore]
  · rw [hstep2]; simp [handleTimerCompleteCore]
  · rw [hstep2]; simp [handleTimerCompleteCore]
  · rw [hstep2]; simp [handleTimerCompleteCore, setTimer]

/-- C4 witness: the two polls at exactly one and two full periods. -/
theorem timer_two_cycle_lifecycle_witness :
    (checkTimerStatus (startWorkTimer emptyRegistry "u" 0).2 "u" 2400000).1.status =
      "session_complete" ∧
    (checkTimerStatus (checkTimerStatus (startWorkTimer emptyRegistry "u" 0).2 "u"
      2400000).2 "u" 4800000).1.status = "ai_clone_activated" := by
  have h := timer_two_cycle_lifecycle emptyRegistry "u" 0 2400000 4800000 (by decide) (by decide)
  exact ⟨h.1, h.2.2.2.1⟩

/-- C5 counterexample: with a session started at time 0 for user "u",
still active and inside its window at time 100 (the poll reports
"active"), a second startWorkTimer call at time 100 silently resets the
stored start instant from 0 to 100 — the claim that a second start call
must not reset startedAt fails on the code. -/
theorem startWorkTimer_restart_counterexample :
    ((startWorkTimer emptyRegistry "u" 0).2 "u").map (fun t => t.isActive) = some true ∧
    (checkTimerStatus (startWorkTimer emptyRegistry "u" 0).2 "u" 100).1.status = "active" ∧
    ((startWorkTimer (startWorkTimer emptyRegistry "u" 0).2 "u" 100).2 "u").map
      (fun t => t.startTime) = some 100 ∧
    ¬ ((startWorkTimer (startWorkTimer emptyRegistry "u" 0).2 "u" 100).2 "u").map
      (fun t => t.startTime) = some 0 := by
  decide

/-- C5 (amended): startWorkTimer never rejects or queues — whatever the
existing session state, it silently replaces the user's record with a
fresh one (startedAt = now, alarmCount = 0, active), answers
timer_started, and leaves every other user's record unchanged. -/
theorem startWorkTimer_silently_restarts (reg : Registry) (u : String) (now : Int) :
    (startWorkTimer reg u now).2 u = some ⟨now, 2400000, 0, true, "work", 1⟩ ∧
    (startWorkTimer reg u now).1.status = "timer_started" ∧
    ∀ v, v ≠ u → (startWorkTimer reg u now).2 v = reg v := by
  refine ⟨startWorkTimer_lookup reg u now, rfl, ?_⟩
  intro v hv
  simp [startWorkTimer, setTimer, hv]

/-- C5 amended witness: a start call for "u" leaves "w" untouched. -/
theorem startWorkTimer_silently_restarts_witness :
    (startWorkTimer emptyRegistry "u" 5).2 "w" = emptyRegistry "w" :=
  (startWorkTimer_silently_restarts emptyRegistry "u" 5).2.2 "w" (by decide)

/-- C10: every registry reachable by any sequence of startWorkTimer and
checkTimerStatus calls keeps alarmCount in {0, 1, 2} with alarmCount = 2
only on inactive records; consequently a poll on a record that already
reported clone activation (alarmCount = 2) leaves the record unchanged and
answers no_active_timer rather than incrementing further. -/
theorem timer_registry_alarm_invariant :
    (∀ ops : List TimerOp, TimerInv (runTimerOps ops)) ∧
    (∀ (reg : Registry) (u : String) (now : Int) (t : TimerData), TimerInv reg →
      reg u = some t → t.alarmCount = 2 →
      (checkTimerStatus reg u now).2 u = some t ∧
      (checkTimerStatus reg u now).1.status = "no_active_timer") := by
  constructor
  · intro ops
    have haux : ∀ (l : List TimerOp) (reg : Registry), TimerInv reg →
        TimerInv (l.foldl stepTimer reg) := by
      intro l
      induction l with
      | nil => intro reg h; exact h
      | cons op rest ih =>
        intro reg h
        exact ih _ (stepTimer_preserves_inv reg op h)
    exact haux ops emptyRegistry (fun u t h => Option.noConfusion h)
  · intro reg u now t hinv hreg hcount
    have hact : t.isActive = false := (hinv u t hreg).2 hcount
    constructor
    · simp [checkTimerStatus, hreg, hact]
    · simp [checkTimerStatus, hreg, hact]

/-- C10 witness: after start and two completing polls, a further poll on
the clone-activated record changes nothing. -/
theorem timer_registry_alarm_invariant_witness :
    (checkTimerStatus (runTimerOps
        [TimerOp.start "u" 0, TimerOp.poll "u" 2400000, TimerOp.poll "u" 4800000])
      "u" 9000000).1.status = "no_active_timer" := by
  have h := timer_registry_alarm_invariant
  exact (h.2 (runTimerOps
      [TimerOp.start "u" 0, TimerOp.poll "u" 2400000, TimerOp.poll "u" 4800000])
    "u" 9000000 ⟨2400000, 2400000, 2, false, "work", 2⟩
    (h.1 [TimerOp.start "u" 0, TimerOp.poll "u" 2400000, TimerOp.poll "u" 4800000])
    (by decide) rfl).2

/-- C6: handleSpecialCommands routes by testing the lower-cased command
against the trigger sets in the fixed precedence order session-start,
timer-status, stress/safe-mode, clone, scan-intent, mode-switch — exactly
the spec's ordered first-match table, with no match delegating to the AI
orchestrator (none) — and the command "I am stressed and overwhelmed"
yields a safe_mode_active response for every timer-registry state. -/
theorem handleSpecialCommands_routing :
    (∀ (command userId : String) (reg : Registry) (now : Int),
      handleSpecialCommands command userId reg now = routeSpec command userId reg now) ∧
    (∀ (userId : String) (reg : Registry) (now : Int),
      (handleSpecialCommands "I am stressed and overwhelmed" userId reg now).map
        (fun x => x.1.status) = some "safe_mode_active") := by
  constructor
  · intro command userId reg now
    by_cases h1 : sessionStartTrigger (lowercase command) = true <;>
      by_cases h2 : timerStatusTrigger (lowercase command) = true <;>
      by_cases h3 : stressTrigger (lowercase command) = true <;>
      by_cases h4 : cloneTrigger (lowercase command) = true <;>
      by_cases h5 : scanTrigger (lowercase command) = true <;>
      by_cases h6 : multiModeTrigger (lowercase command) = true <;>
      simp [handleSpecialCommands, routeSpec, List.findSome?, h1, h2, h3, h4, h5, h6]
  · intro userId reg now
    have h1 : sessionStartTrigger (lowercase "I am stressed and overwhelmed") = false := by decide
    have h2 : timerStatusTrigger (lowercase "I am stressed and overwhelmed") = false := by decide
    have h3 : stressTrigger (lowercase "I am stressed and overwhelmed") = true := by decide
    simp [handleSpecialCommands, h1, h2, h3, activateSafeMode]

end Aura
